import Mathlib

set_option linter.unusedVariables false

/-!
# Walrus Events — verification of the access-control and ticket ledger

Shallow embedding of the two Move modules `walrus_events::seal_access`
(`src/unnamed/part_006`) and `walrus_events::ticket_system`
(`src/contracts/walrus_events/sources/ticket_system.move`).

Modelling conventions:
* Sui addresses are `Nat`; Move `vector<u8>` is `List Nat` (`Bytes`).
* Move `String` is its underlying byte vector; `std::string::utf8` aborts on
  bytes that are not valid UTF-8, which we model with the abort constructor
  `MoveAbort.invalidUtf8` and the checker `validUtf8`.
* `sui::table::Table` is an association list; `table::add` appends (every call
  site in the source first checks `!contains`), `table::remove` filters the
  key out, `table::borrow` looks the key up.
* An aborting Move call rolls the whole transaction back, so an entry function
  is a pure function returning `Except MoveAbort σ`: `.error` means the
  transaction aborted with no state change and no object creation or fund
  movement, `.ok` carries the complete post-state / created objects.
* `TxContext` is passed as explicit `sender` (`tx_context::sender`) and
  `epoch`/`timestamp` (`tx_context::epoch`) arguments; `object::new` is a
  caller-supplied fresh id where an id matters.
* Fund movement (`transfer::public_transfer` of a `Coin`) is recorded as an
  explicit `Transfer` value in the result.
-/

namespace WalrusEvents

/-- Principal identities (Sui addresses). -/
abbrev Address := Nat

/-- Move `vector<u8>`. -/
abbrev Bytes := List Nat

/-- Is `b` a UTF-8 continuation byte (`0x80`–`0xBF`)? -/
def isCont (b : Nat) : Bool := 0x80 ≤ b && b ≤ 0xBF

/-- UTF-8 validity of a byte sequence, as checked by `std::string::utf8`
(the standard table-driven definition: RFC 3629 well-formedness). -/
def validUtf8 : List Nat → Bool
  | [] => true
  | b :: rest =>
    if b ≤ 0x7F then validUtf8 rest
    else if 0xC2 ≤ b && b ≤ 0xDF then
      match rest with
      | c1 :: r => isCont c1 && validUtf8 r
      | [] => false
    else if b = 0xE0 then
      match rest with
      | c1 :: c2 :: r => (0xA0 ≤ c1 && c1 ≤ 0xBF) && isCont c2 && validUtf8 r
      | _ => false
    else if 0xE1 ≤ b && b ≤ 0xEC then
      match rest with
      | c1 :: c2 :: r => isCont c1 && isCont c2 && validUtf8 r
      | _ => false
    else if b = 0xED then
      match rest with
      | c1 :: c2 :: r => (0x80 ≤ c1 && c1 ≤ 0x9F) && isCont c2 && validUtf8 r
      | _ => false
    else if 0xEE ≤ b && b ≤ 0xEF then
      match rest with
      | c1 :: c2 :: r => isCont c1 && isCont c2 && validUtf8 r
      | _ => false
    else if b = 0xF0 then
      match rest with
      | c1 :: c2 :: c3 :: r =>
          (0x90 ≤ c1 && c1 ≤ 0xBF) && isCont c2 && isCont c3 && validUtf8 r
      | _ => false
    else if 0xF1 ≤ b && b ≤ 0xF3 then
      match rest with
      | c1 :: c2 :: c3 :: r => isCont c1 && isCont c2 && isCont c3 && validUtf8 r
      | _ => false
    else if b = 0xF4 then
      match rest with
      | c1 :: c2 :: c3 :: r =>
          (0x80 ≤ c1 && c1 ≤ 0x8F) && isCont c2 && isCont c3 && validUtf8 r
      | _ => false
    else false

/-- The ways an embedded Move call can abort: `invalidUtf8` is the
`std::string::utf8` assertion, `borrowMissing` is `table::borrow` on an
absent key, `code n` is `assert!(_, n)` with a module-local abort code. -/
inductive MoveAbort where
  | invalidUtf8
  | borrowMissing
  | code (n : Nat)
deriving DecidableEq, Repr

namespace MoveTable

/-- `table::contains`. -/
def contains {β : Type} : List (Address × β) → Address → Bool
  | [], _ => false
  | e :: rest, k => e.1 == k || contains rest k

/-- `table::borrow` (as an `Option`; every call site in the source is guarded
by `contains`, the unguarded abort is `MoveAbort.borrowMissing`). -/
def borrow {β : Type} : List (Address × β) → Address → Option β
  | [], _ => none
  | e :: rest, k => if e.1 = k then some e.2 else borrow rest k

/-- `table::add`; call sites in the source always check `!contains` first,
so appending the new binding is faithful there. -/
def add {β : Type} (t : List (Address × β)) (k : Address) (v : β) :
    List (Address × β) :=
  t ++ [(k, v)]

/-- `table::remove`. -/
def remove {β : Type} : List (Address × β) → Address → List (Address × β)
  | [], _ => []
  | e :: rest, k => if e.1 = k then remove rest k else e :: remove rest k

end MoveTable

namespace seal_access

def ENotOrganizer : Nat := 0
def ENotParticipant : Nat := 1
def EEventNotFound : Nat := 2
def EAlreadyParticipant : Nat := 3
def EEventNotActive : Nat := 4

/-- `seal_access::ParticipantInfo`. -/
structure ParticipantInfo where
  joined_at : Nat
  has_paid : Bool
  access_level : Nat
deriving DecidableEq, Repr

/-- `seal_access::EventAccess` (the object `id : UID` is omitted — no
operation reads it). -/
structure EventAccess where
  event_id : Bytes
  organizer : Address
  is_public : Bool
  requires_payment : Bool
  payment_amount : Nat
  is_active : Bool
  participants : List (Address × ParticipantInfo)
  created_at : Nat
deriving DecidableEq, Repr

/-- `seal_access::create_event_access`: validates `event_id` as UTF-8, builds
the shared `EventAccess` with `is_active = true`, and adds the sender as the
organizer participant (`has_paid = true`, `access_level = 2`). -/
def create_event_access (event_id : Bytes) (is_public : Bool)
    (requires_payment : Bool) (payment_amount : Nat)
    (sender : Address) (timestamp : Nat) : Except MoveAbort EventAccess :=
  if validUtf8 event_id = false then .error .invalidUtf8
  else .ok
    { event_id := event_id
      organizer := sender
      is_public := is_public
      requires_payment := requires_payment
      payment_amount := payment_amount
      is_active := true
      participants := MoveTable.add []
        sender { joined_at := timestamp, has_paid := true, access_level := 2 }
      created_at := timestamp }

/-- `seal_access::join_event`: asserts the event is active
(`EEventNotActive`), then that the sender is not yet a participant
(`EAlreadyParticipant`), then inserts
`ParticipantInfo { joined_at := timestamp, has_paid := !requires_payment,
access_level := 0 }`. -/
def join_event (access : EventAccess) (sender : Address) (timestamp : Nat) :
    Except MoveAbort EventAccess :=
  if access.is_active = false then .error (.code EEventNotActive)
  else if MoveTable.contains access.participants sender then
    .error (.code EAlreadyParticipant)
  else
    .ok { access with
          participants := MoveTable.add access.participants sender
            { joined_at := timestamp, has_paid := !access.requires_payment,
              access_level := 0 } }

/-- `seal_access::leave_event`: asserts the sender is a participant
(`ENotParticipant`), then that the sender is not the organizer
(`ENotOrganizer`), then removes the sender's record. -/
def leave_event (access : EventAccess) (sender : Address) (timestamp : Nat) :
    Except MoveAbort EventAccess :=
  if MoveTable.contains access.participants sender = false then
    .error (.code ENotParticipant)
  else if sender = access.organizer then .error (.code ENotOrganizer)
  else
    .ok { access with
          participants := MoveTable.remove access.participants sender }

/-- `seal_access::seal_approve`: decodes the claimed event id
(`string::utf8`, aborting on invalid UTF-8), then runs the four ordered
checks, each returning `false`: id match, `is_active`, membership, and — when
`requires_payment` — the participant's `has_paid` flag. -/
def seal_approve (access : EventAccess) (event_id_bytes : Bytes)
    (user : Address) : Except MoveAbort Bool :=
  if validUtf8 event_id_bytes = false then .error .invalidUtf8
  else if access.event_id ≠ event_id_bytes then .ok false
  else if access.is_active = false then .ok false
  else if MoveTable.contains access.participants user = false then .ok false
  else
    match MoveTable.borrow access.participants user with
    | none => .error .borrowMissing
    | some participant_info =>
      if access.requires_payment && !participant_info.has_paid then .ok false
      else .ok true

/-- `seal_access::seal_approve_simple`. -/
def seal_approve_simple (access : EventAccess) (user : Address) : Bool :=
  MoveTable.contains access.participants user

/-- `seal_access::deactivate_event`: organizer-only (`ENotOrganizer`), sets
`is_active := false`. -/
def deactivate_event (access : EventAccess) (sender : Address) :
    Except MoveAbort EventAccess :=
  if access.organizer = sender then .ok { access with is_active := false }
  else .error (.code ENotOrganizer)

/-- `seal_access::reactivate_event`: organizer-only (`ENotOrganizer`), sets
`is_active := true`. -/
def reactivate_event (access : EventAccess) (sender : Address) :
    Except MoveAbort EventAccess :=
  if access.organizer = sender then .ok { access with is_active := true }
  else .error (.code ENotOrganizer)

/-- `seal_access::add_participant`: organizer-only (`ENotOrganizer`), asserts
the target is not yet enrolled (`EAlreadyParticipant`), inserts the record
with `has_paid := true` and the given access level. -/
def add_participant (access : EventAccess) (participant : Address)
    (access_level : Nat) (sender : Address) (timestamp : Nat) :
    Except MoveAbort EventAccess :=
  if access.organizer ≠ sender then .error (.code ENotOrganizer)
  else if MoveTable.contains access.participants participant then
    .error (.code EAlreadyParticipant)
  else
    .ok { access with
          participants := MoveTable.add access.participants participant
            { joined_at := timestamp, has_paid := true,
              access_level := access_level } }

end seal_access

namespace ticket_system

def EEventFull : Nat := 3
def EAlreadyCheckedIn : Nat := 4
def EUnauthorized : Nat := 5
def EInsufficientPayment : Nat := 6
def ESoulbound : Nat := 7
def EInvalidZKProof : Nat := 8

/-- `sui::coin::Coin<SUI>`, reduced to its value. -/
structure Coin where
  value : Nat
deriving DecidableEq, Repr

/-- A `transfer::public_transfer` of a coin: how much moved and to whom. -/
structure Transfer where
  amount : Nat
  recipient : Address
deriving DecidableEq, Repr

/-- `ticket_system::EventTicket`; `id : Nat` models the object `UID`
(`object::uid_to_address` is the identity in this model). -/
structure EventTicket where
  id : Nat
  event_id : Bytes
  ticket_number : Nat
  attendee : Address
  is_soulbound : Bool
  checked_in : Bool
  minted_at : Nat
  metadata_uri : Bytes
  zk_proof_hash : Bytes
deriving DecidableEq, Repr

/-- `ticket_system::CheckInProof` (POAP; its own `UID` is omitted — nothing
reads it). -/
structure CheckInProof where
  event_id : Bytes
  attendee : Address
  checked_in_at : Nat
deriving DecidableEq, Repr

/-- `ticket_system::TicketListing` (its own `UID` is omitted — nothing reads
it; `ticket_id` is the listed ticket's object address). -/
structure TicketListing where
  ticket_id : Nat
  seller : Address
  price : Nat
deriving DecidableEq, Repr

/-- Result of a successful `buy_new_ticket`: the freshly minted ticket, the
address it was transferred to (`transfer::transfer(ticket, sender)`), and the
coin transfer to the organizer. -/
structure BuyNewTicketResult where
  ticket : EventTicket
  ticket_owner : Address
  payment_transfer : Transfer
deriving DecidableEq, Repr

/-- `ticket_system::buy_new_ticket`: asserts
`coin::value(payment) >= price` (`EInsufficientPayment`), transfers the whole
payment to `organizer`, then mints the ticket to the sender (decoding
`event_id` and `metadata_uri` as UTF-8, each of which can abort; an abort
rolls back the payment transfer). -/
def buy_new_ticket (event_id : Bytes) (ticket_number : Nat)
    (is_soulbound : Bool) (metadata_uri : Bytes) (payment : Coin)
    (price : Nat) (organizer : Address) (sender : Address) (epoch : Nat)
    (fresh_id : Nat) : Except MoveAbort BuyNewTicketResult :=
  if payment.value < price then .error (.code EInsufficientPayment)
  else if validUtf8 event_id = false then .error .invalidUtf8
  else if validUtf8 metadata_uri = false then .error .invalidUtf8
  else
    .ok { ticket :=
            { id := fresh_id
              event_id := event_id
              ticket_number := ticket_number
              attendee := sender
              is_soulbound := is_soulbound
              checked_in := false
              minted_at := epoch
              metadata_uri := metadata_uri
              zk_proof_hash := [] }
          ticket_owner := sender
          payment_transfer := { amount := payment.value, recipient := organizer } }

/-- `ticket_system::verify_zk_proof`: asserts the proof is non-empty
(`EInvalidZKProof`), decodes it as UTF-8 (can abort), and stores it in
`zk_proof_hash`. -/
def verify_zk_proof (ticket : EventTicket) (zk_proof : Bytes) :
    Except MoveAbort EventTicket :=
  if zk_proof.length = 0 then .error (.code EInvalidZKProof)
  else if validUtf8 zk_proof = false then .error .invalidUtf8
  else .ok { ticket with zk_proof_hash := zk_proof }

/-- `ticket_system::check_in`: asserts not yet checked in
(`EAlreadyCheckedIn`), then that the sender is the attendee
(`EUnauthorized`); sets `checked_in := true` and mints a `CheckInProof` to
the attendee. -/
def check_in (ticket : EventTicket) (sender : Address) (epoch : Nat) :
    Except MoveAbort (EventTicket × CheckInProof) :=
  if ticket.checked_in then .error (.code EAlreadyCheckedIn)
  else if ticket.attendee ≠ sender then .error (.code EUnauthorized)
  else
    .ok ({ ticket with checked_in := true },
         { event_id := ticket.event_id
           attendee := ticket.attendee
           checked_in_at := epoch })

/-- `ticket_system::list_for_sale`: asserts the ticket is not soulbound
(`ESoulbound`), then shares a `TicketListing` recording the ticket's object
address, the attendee as seller, and the price, and shares the (unchanged)
ticket itself. The caller identity is not consulted. -/
def list_for_sale (ticket : EventTicket) (price : Nat) (sender : Address) :
    Except MoveAbort (TicketListing × EventTicket) :=
  if ticket.is_soulbound then .error (.code ESoulbound)
  else
    .ok ({ ticket_id := ticket.id, seller := ticket.attendee, price := price },
         ticket)

/-- Result of a successful `buy_ticket`: the updated ticket, its new owner,
and the coin transfer to the listing's seller (the listing object is
consumed and deleted). -/
structure BuyTicketResult where
  ticket : EventTicket
  ticket_owner : Address
  payment_transfer : Transfer
deriving DecidableEq, Repr

/-- `ticket_system::buy_ticket`: asserts
`coin::value(payment) >= listing.price` (`EInsufficientPayment`), transfers
the whole payment to `listing.seller`, sets the ticket's `attendee` to the
sender, transfers the ticket to the sender, and deletes the listing. The
listing's `ticket_id` field is dropped unread. -/
def buy_ticket (listing : TicketListing) (ticket : EventTicket)
    (payment : Coin) (sender : Address) : Except MoveAbort BuyTicketResult :=
  if payment.value < listing.price then .error (.code EInsufficientPayment)
  else
    .ok { ticket := { ticket with attendee := sender }
          ticket_owner := sender
          payment_transfer :=
            { amount := payment.value, recipient := listing.seller } }

end ticket_system

open seal_access ticket_system

/-- Did an embedded call abort (as opposed to returning a value)? -/
def aborts {σ : Type} : Except MoveAbort σ → Bool
  | .ok _ => false
  | .error _ => true

/-- The payment condition of `seal_approve`'s fourth check, as a boolean on
the looked-up participant record (`true` when the principal is absent — the
fourth check is only reached behind the membership check). -/
def paidOk (a : EventAccess) (u : Address) : Bool :=
  match MoveTable.borrow a.participants u with
  | some info => !(a.requires_payment && !info.has_paid)
  | none => true

/-- Concrete organizer record used by test fixtures. -/
def orgInfo : ParticipantInfo :=
  { joined_at := 0, has_paid := true, access_level := 2 }

/-- Concrete basic (free-join) record used by test fixtures. -/
def basicInfo : ParticipantInfo :=
  { joined_at := 1, has_paid := true, access_level := 0 }

/-- A concrete active, public, free policy with organizer `7`, as produced
by `create_event_access [101] true false 0 7 0`. -/
def samplePolicy : EventAccess :=
  { event_id := [101], organizer := 7, is_public := true,
    requires_payment := false, payment_amount := 0, is_active := true,
    participants := [(7, orgInfo)], created_at := 0 }

/-- `samplePolicy` after the organizer deactivated it. -/
def samplePolicyInactive : EventAccess := { samplePolicy with is_active := false }

/-- `samplePolicy` after principal `5` joined at epoch `1`. -/
def samplePolicyJoined : EventAccess :=
  { samplePolicy with participants := [(7, orgInfo), (5, basicInfo)] }

/-- A concrete transferable, unchecked ticket held by principal `5`. -/
def sampleTicket : EventTicket :=
  { id := 99, event_id := [101], ticket_number := 1, attendee := 5,
    is_soulbound := false, checked_in := false, minted_at := 0,
    metadata_uri := [], zk_proof_hash := [] }

/-- `sampleTicket` minted soulbound instead. -/
def sampleSoulboundTicket : EventTicket :=
  { sampleTicket with is_soulbound := true }

/-- The `EventAccess` states reachable through the module's public mutating
interface: created by `create_event_access`, then mutated by any succeeding
sequence of `join_event`, `leave_event`, `add_participant`,
`deactivate_event`, `reactivate_event` calls. -/
inductive Reachable : EventAccess → Prop where
  | created (eid : Bytes) (pub pay : Bool) (amt : Nat) (s : Address) (ts : Nat)
      (a : EventAccess) :
      create_event_access eid pub pay amt s ts = .ok a → Reachable a
  | joined (a a' : EventAccess) (s : Address) (ts : Nat) :
      Reachable a → join_event a s ts = .ok a' → Reachable a'
  | left (a a' : EventAccess) (s : Address) (ts : Nat) :
      Reachable a → leave_event a s ts = .ok a' → Reachable a'
  | added (a a' : EventAccess) (p : Address) (lvl : Nat) (s : Address) (ts : Nat) :
      Reachable a → add_participant a p lvl s ts = .ok a' → Reachable a'
  | deactivated (a a' : EventAccess) (s : Address) :
      Reachable a → deactivate_event a s = .ok a' → Reachable a'
  | reactivated (a a' : EventAccess) (s : Address) :
      Reachable a → reactivate_event a s = .ok a' → Reachable a'

/-- A (possibly empty) sequence of successful `join_event` calls, all by
principals other than `s`, leading from one policy state to another. -/
inductive JoinsBy (s : Address) : EventAccess → EventAccess → Prop where
  | refl (a : EventAccess) : JoinsBy s a a
  | step (a b c : EventAccess) (u : Address) (ts : Nat) :
      JoinsBy s a b → u ≠ s → join_event b u ts = .ok c → JoinsBy s a c

/-! ## Association-table lemmas -/

namespace MoveTable

variable {β : Type}

theorem contains_eq_isSome_borrow (t : List (Address × β)) (k : Address) :
    contains t k = (borrow t k).isSome := by
  induction t with
  | nil => rfl
  | cons e rest ih =>
    by_cases h : e.1 = k
    · simp [contains, borrow, h]
    · simp [contains, borrow, h, ih]

theorem borrow_append_of_some (t t2 : List (Address × β)) (k : Address)
    (v : β) (h : borrow t k = some v) : borrow (t ++ t2) k = some v := by
  induction t with
  | nil => simp [borrow] at h
  | cons e rest ih =>
    by_cases he : e.1 = k
    · simpa [borrow, he] using by simpa [borrow, he] using h
    · simp only [borrow, List.cons_append, if_neg he] at h ⊢
      exact ih h

theorem borrow_add_of_some (t : List (Address × β)) (k k' : Address)
    (v w : β) (h : borrow t k' = some w) : borrow (add t k v) k' = some w :=
  borrow_append_of_some t [(k, v)] k' w h

theorem borrow_add_of_ne (t : List (Address × β)) (k k' : Address) (v : β)
    (h : k' ≠ k) : borrow (add t k v) k' = borrow t k' := by
  induction t with
  | nil =>
    simp only [add, List.nil_append, borrow, ite_eq_right_iff]
    exact fun hk => absurd hk.symm h
  | cons e rest ih =>
    by_cases he : e.1 = k'
    · simp [add, borrow, he] at ih ⊢
    · simp only [add, borrow, List.cons_append, if_neg he] at ih ⊢
      exact ih

theorem borrow_add_self (t : List (Address × β)) (k : Address) (v : β)
    (h : borrow t k = none) : borrow (add t k v) k = some v := by
  induction t with
  | nil => simp [add, borrow]
  | cons e rest ih =>
    by_cases he : e.1 = k
    · simp [borrow, he] at h
    · simp only [borrow, if_neg he] at h
      simp only [add, borrow, List.cons_append, if_neg he]
      exact ih h

theorem borrow_remove_of_ne (t : List (Address × β)) (k k' : Address)
    (h : k' ≠ k) : borrow (remove t k) k' = borrow t k' := by
  induction t with
  | nil => rfl
  | cons e rest ih =>
    by_cases he : e.1 = k
    · have : ¬ e.1 = k' := fun hk => h (hk ▸ he ▸ rfl)
      rw [remove, if_pos he, ih, borrow, if_neg this]
    · by_cases he' : e.1 = k'
      · rw [remove, if_neg he, borrow, if_pos he', borrow, if_pos he']
      · rw [remove, if_neg he, borrow, if_neg he', borrow, if_neg he', ih]

theorem contains_of_borrow_some (t : List (Address × β)) (k : Address)
    (v : β) (h : borrow t k = some v) : contains t k = true := by
  rw [contains_eq_isSome_borrow, h]; rfl

theorem borrow_eq_none_of_contains_false (t : List (Address × β))
    (k : Address) (h : contains t k = false) : borrow t k = none := by
  rw [contains_eq_isSome_borrow] at h
  exact Option.not_isSome_iff_eq_none.mp (by simp [h])

end MoveTable

/-! ## Characterizations of the `seal_access` operations -/

theorem create_event_access_ok_iff (eid : Bytes) (pub pay : Bool) (amt : Nat)
    (s : Address) (ts : Nat) (a : EventAccess) :
    create_event_access eid pub pay amt s ts = .ok a ↔
      (validUtf8 eid = true ∧
       a = { event_id := eid, organizer := s, is_public := pub,
             requires_payment := pay, payment_amount := amt,
             is_active := true,
             participants :=
               [(s, { joined_at := ts, has_paid := true, access_level := 2 })],
             created_at := ts }) := by
  unfold create_event_access
  by_cases h : validUtf8 eid = false
  · simp [h]
  · have h' : validUtf8 eid = true := by simpa using h
    simp [h', MoveTable.add, eq_comm]

theorem join_event_ok_iff (a : EventAccess) (s : Address) (ts : Nat)
    (a' : EventAccess) :
    join_event a s ts = .ok a' ↔
      (a.is_active = true ∧ MoveTable.contains a.participants s = false ∧
       a' = { a with
              participants :=
                MoveTable.add a.participants s
                  { joined_at := ts, has_paid := !a.requires_payment,
                    access_level := 0 } }) := by
  unfold join_event
  by_cases h1 : a.is_active = false
  · simp [h1]
  · have h1' : a.is_active = true := by simpa using h1
    by_cases h2 : MoveTable.contains a.participants s
    · simp [h1', h2]
    · simp [h1', h2, eq_comm]

theorem leave_event_ok_iff (a : EventAccess) (s : Address) (ts : Nat)
    (a' : EventAccess) :
    leave_event a s ts = .ok a' ↔
      (MoveTable.contains a.participants s = true ∧ s ≠ a.organizer ∧
       a' = { a with participants := MoveTable.remove a.participants s }) := by
  unfold leave_event
  by_cases h1 : MoveTable.contains a.participants s = false
  · simp [h1]
  · have h1' : MoveTable.contains a.participants s = true := by simpa using h1
    by_cases h2 : s = a.organizer
    · subst h2; simp [h1']
    · simp [h1', h2, eq_comm]

theorem deactivate_event_ok_iff (a : EventAccess) (s : Address)
    (a' : EventAccess) :
    deactivate_event a s = .ok a' ↔
      (a.organizer = s ∧ a' = { a with is_active := false }) := by
  unfold deactivate_event
  by_cases h : a.organizer = s
  · simp [h, eq_comm]
  · simp [h]

theorem reactivate_event_ok_iff (a : EventAccess) (s : Address)
    (a' : EventAccess) :
    reactivate_event a s = .ok a' ↔
      (a.organizer = s ∧ a' = { a with is_active := true }) := by
  unfold reactivate_event
  by_cases h : a.organizer = s
  · simp [h, eq_comm]
  · simp [h]

theorem add_participant_ok_iff (a : EventAccess) (p : Address) (lvl : Nat)
    (s : Address) (ts : Nat) (a' : EventAccess) :
    add_participant a p lvl s ts = .ok a' ↔
      (a.organizer = s ∧ MoveTable.contains a.participants p = false ∧
       a' = { a with
              participants :=
                MoveTable.add a.participants p
                  { joined_at := ts, has_paid := true,
                    access_level := lvl } }) := by
  unfold add_participant
  by_cases h1 : a.organizer = s
  · by_cases h2 : MoveTable.contains a.participants p
    · simp [h1, h2]
    · simp [h1, h2, eq_comm]
  · simp [h1]

/-- On a valid-UTF-8 claimed id, `seal_approve` returns exactly the ordered
conjunction of its four checks as a boolean. -/
theorem seal_approve_eq (a : EventAccess) (bytes : Bytes) (u : Address)
    (hv : validUtf8 bytes = true) :
    seal_approve a bytes u =
      .ok ((a.event_id == bytes) && a.is_active &&
           MoveTable.contains a.participants u && paidOk a u) := by
  unfold seal_approve
  rw [hv]
  by_cases h1 : a.event_id = bytes
  · by_cases h2 : a.is_active
    · by_cases h3 : MoveTable.contains a.participants u
      · have hs : (MoveTable.borrow a.participants u).isSome := by
          rw [← MoveTable.contains_eq_isSome_borrow]; exact h3
        cases hb : MoveTable.borrow a.participants u with
        | none => rw [hb] at hs; simp at hs
        | some info =>
          cases h4 : a.requires_payment && !info.has_paid <;>
            simp [h1, h2, h3, hb, h4, paidOk]
      · simp [h1, h2, h3]
    · simp [h1, h2]
  · simp [h1, Ne.symm h1]

/-- For an enrolled principal, the boolean payment check agrees with
"if payment is required, the stored record has `has_paid = true`". -/
theorem paidOk_eq_true_iff (a : EventAccess) (u : Address)
    (h : MoveTable.contains a.participants u = true) :
    (paidOk a u = true ↔
      (a.requires_payment = true →
        Option.map ParticipantInfo.has_paid (MoveTable.borrow a.participants u) =
          some true)) := by
  have hs : (MoveTable.borrow a.participants u).isSome := by
    rw [← MoveTable.contains_eq_isSome_borrow]; exact h
  cases hb : MoveTable.borrow a.participants u with
  | none => rw [hb] at hs; simp at hs
  | some info =>
    cases hr : a.requires_payment <;> cases hp : info.has_paid <;>
      simp [paidOk, hb, hr, hp]

/-! ## Claims -/

/-- C1: for every `EventAccess` policy (with the `String` type invariant
that its stored `event_id` is valid UTF-8), every claimed event id, and every
principal, `seal_approve` returns `true` iff the claimed id equals the
policy's `event_id`, the policy's `is_active` flag is true, the principal is
a key of the participants table, and, when `requires_payment` is true, the
principal's record has `has_paid = true`; moreover on a well-formed (valid
UTF-8) claimed id the ordered, short-circuiting checks always collapse to
the plain result `false` or `true`. -/
theorem C1_seal_approve_characterization (a : EventAccess) (bytes : Bytes)
    (u : Address) (hwf : validUtf8 a.event_id = true) :
    (seal_approve a bytes u = .ok true ↔
      (bytes = a.event_id ∧ a.is_active = true ∧
       MoveTable.contains a.participants u = true ∧
       (a.requires_payment = true →
         Option.map ParticipantInfo.has_paid
           (MoveTable.borrow a.participants u) = some true))) ∧
    (validUtf8 bytes = true →
      seal_approve a bytes u = .ok false ∨ seal_approve a bytes u = .ok true) := by
  constructor
  · by_cases hv : validUtf8 bytes = true
    · rw [seal_approve_eq a bytes u hv]
      constructor
      · intro hok
        have hb : ((a.event_id == bytes) && a.is_active &&
            MoveTable.contains a.participants u && paidOk a u) = true := by
          simpa using hok
        simp only [Bool.and_eq_true, beq_iff_eq] at hb
        obtain ⟨⟨⟨h1, h2⟩, h3⟩, h4⟩ := hb
        exact ⟨h1.symm, h2, h3, (paidOk_eq_true_iff a u h3).mp h4⟩
      · rintro ⟨h1, h2, h3, h4⟩
        have hp : paidOk a u = true := (paidOk_eq_true_iff a u h3).mpr h4
        simp [h1, h2, h3, hp]
    · have hvf : validUtf8 bytes = false := by simpa using hv
      constructor
      · intro hok
        unfold seal_approve at hok
        rw [hvf] at hok
        simp at hok
      · rintro ⟨h1, _, _, _⟩
        rw [h1] at hvf
        rw [hwf] at hvf
        exact absurd hvf (by simp)
  · intro hv
    rw [seal_approve_eq a bytes u hv]
    cases ((a.event_id == bytes) && a.is_active &&
        MoveTable.contains a.participants u && paidOk a u) <;> simp

/-- Witness for C1: on a concrete paid, active policy whose participant `5`
has paid, `seal_approve` grants access. -/
theorem C1_witness :
    seal_approve
      { event_id := [101], organizer := 7, is_public := true,
        requires_payment := true, payment_amount := 10, is_active := true,
        participants :=
          [(7, { joined_at := 0, has_paid := true, access_level := 2 }),
           (5, { joined_at := 1, has_paid := true, access_level := 0 })],
        created_at := 0 }
      [101] 5 = .ok true :=
  (C1_seal_approve_characterization
      { event_id := [101], organizer := 7, is_public := true,
        requires_payment := true, payment_amount := 10, is_active := true,
        participants :=
          [(7, { joined_at := 0, has_paid := true, access_level := 2 }),
           (5, { joined_at := 1, has_paid := true, access_level := 0 })],
        created_at := 0 }
      [101] 5 rfl).1.mpr ⟨rfl, rfl, rfl, fun _ => rfl⟩

/-- C3 counterexample: at a concrete policy and principal, `seal_approve`
applied to the byte sequence `[0xFF]` — which is not valid UTF-8 — aborts in
`string::utf8` with `invalidUtf8` instead of returning a plain boolean, so
the claim fails for that byte sequence. -/
theorem C3_counterexample :
    seal_approve
      { event_id := [101], organizer := 7, is_public := true,
        requires_payment := false, payment_amount := 0, is_active := true,
        participants :=
          [(7, { joined_at := 0, has_paid := true, access_level := 2 })],
        created_at := 0 }
      [255] 7 = .error .invalidUtf8 := rfl

/-- C3 (amended): for every policy, every principal, and every claimed event
id whose byte sequence is valid UTF-8, `seal_approve` never aborts: it
terminates with a plain boolean, every unsatisfied condition collapsing to
`false`. (The sole abort path is `string::utf8` on invalid UTF-8 input.) -/
theorem C3_seal_approve_no_abort (a : EventAccess) (bytes : Bytes)
    (u : Address) (hv : validUtf8 bytes = true) :
    aborts (seal_approve a bytes u) = false := by
  rw [seal_approve_eq a bytes u hv]; rfl

/-- Witness for C3 (amended) at a concrete policy, valid claimed id, and
non-enrolled principal. -/
theorem C3_witness :
    validUtf8 [101] = true ∧
    aborts (seal_approve
      { event_id := [101], organizer := 7, is_public := true,
        requires_payment := false, payment_amount := 0, is_active := true,
        participants :=
          [(7, { joined_at := 0, has_paid := true, access_level := 2 })],
        created_at := 0 }
      [101] 9) = false :=
  ⟨rfl, C3_seal_approve_no_abort
      { event_id := [101], organizer := 7, is_public := true,
        requires_payment := false, payment_amount := 0, is_active := true,
        participants :=
          [(7, { joined_at := 0, has_paid := true, access_level := 2 })],
        created_at := 0 }
      [101] 9 rfl⟩

/-- C2: every reachable policy (created by `create_event_access`, then
mutated by any succeeding sequence of `join_event`, `leave_event`,
`add_participant`, `deactivate_event`, `reactivate_event`) keeps its
organizer in the participants table with `has_paid = true` and
`access_level = 2`; in particular `leave_event` with the organizer as sender
always aborts with `ENotOrganizer` (the spec's `Unauthorized`) and — being an
abort — leaves the policy unchanged. -/
theorem C2_organizer_permanence (a : EventAccess) (ts : Nat)
    (h : Reachable a) :
    Option.map (fun r => (r.has_paid, r.access_level))
      (MoveTable.borrow a.participants a.organizer) = some (true, 2) ∧
    leave_event a a.organizer ts = .error (.code ENotOrganizer) := by
  have key : ∃ t, MoveTable.borrow a.participants a.organizer =
      some { joined_at := t, has_paid := true, access_level := 2 } := by
    induction h with
    | created eid pub pay amt s ts' b hc =>
      obtain ⟨hvu, rfl⟩ := (create_event_access_ok_iff eid pub pay amt s ts' b).mp hc
      exact ⟨ts', by simp [MoveTable.borrow]⟩
    | joined b b' s ts' hr hj ih =>
      obtain ⟨hact, hnotin, rfl⟩ := (join_event_ok_iff b s ts' b').mp hj
      obtain ⟨t, ht⟩ := ih
      exact ⟨t, by simpa using MoveTable.borrow_add_of_some _ _ _ _ _ ht⟩
    | left b b' s ts' hr hl ih =>
      obtain ⟨hin, hne, rfl⟩ := (leave_event_ok_iff b s ts' b').mp hl
      obtain ⟨t, ht⟩ := ih
      refine ⟨t, ?_⟩
      show MoveTable.borrow (MoveTable.remove b.participants s) b.organizer =
        some { joined_at := t, has_paid := true, access_level := 2 }
      rw [MoveTable.borrow_remove_of_ne b.participants s b.organizer (Ne.symm hne)]
      exact ht
    | added b b' p lvl s ts' hr ha ih =>
      obtain ⟨horg, hnotin, rfl⟩ := (add_participant_ok_iff b p lvl s ts' b').mp ha
      obtain ⟨t, ht⟩ := ih
      exact ⟨t, by simpa using MoveTable.borrow_add_of_some _ _ _ _ _ ht⟩
    | deactivated b b' s hr hd ih =>
      obtain ⟨-, rfl⟩ := (deactivate_event_ok_iff b s b').mp hd
      simpa using ih
    | reactivated b b' s hr hd ih =>
      obtain ⟨-, rfl⟩ := (reactivate_event_ok_iff b s b').mp hd
      simpa using ih
  obtain ⟨t, ht⟩ := key
  have hc : MoveTable.contains a.participants a.organizer = true :=
    MoveTable.contains_of_borrow_some _ _ _ ht
  refine ⟨by rw [ht]; rfl, ?_⟩
  unfold leave_event
  rw [hc]
  simp

/-- Witness for C2 at the policy freshly created by organizer `7`. -/
theorem C2_witness :
    Option.map (fun r : ParticipantInfo => (r.has_paid, r.access_level))
      (MoveTable.borrow
        ([(7, { joined_at := 0, has_paid := true, access_level := 2 })] :
          List (Address × ParticipantInfo)) 7) =
      some (true, 2) ∧
    leave_event
      { event_id := [], organizer := 7, is_public := true,
        requires_payment := false, payment_amount := 0, is_active := true,
        participants :=
          [(7, { joined_at := 0, has_paid := true, access_level := 2 })],
        created_at := 0 } 7 3 = .error (.code ENotOrganizer) :=
  C2_organizer_permanence
    { event_id := [], organizer := 7, is_public := true,
      requires_payment := false, payment_amount := 0, is_active := true,
      participants :=
        [(7, { joined_at := 0, has_paid := true, access_level := 2 })],
      created_at := 0 }
    3 (Reachable.created [] true false 0 7 0 _ rfl)

/-! ### Lemmas used by C6 -/

theorem contains_add_of_contains {β : Type} (t : List (Address × β))
    (k k' : Address) (v : β) (h : MoveTable.contains t k' = true) :
    MoveTable.contains (MoveTable.add t k v) k' = true := by
  rw [MoveTable.contains_eq_isSome_borrow] at h ⊢
  cases hb : MoveTable.borrow t k' with
  | none => rw [hb] at h; simp at h
  | some w => rw [MoveTable.borrow_add_of_some t k k' v w hb]; rfl

theorem contains_add_self {β : Type} (t : List (Address × β)) (k : Address)
    (v : β) (h : MoveTable.contains t k = false) :
    MoveTable.contains (MoveTable.add t k v) k = true :=
  MoveTable.contains_of_borrow_some _ _ _
    (MoveTable.borrow_add_self t k v
      (MoveTable.borrow_eq_none_of_contains_false t k h))

/-- Successful joins by other principals change neither the `is_active` flag
nor the membership of `s`. -/
theorem joinsBy_preserves (s : Address) (a b : EventAccess)
    (h : JoinsBy s a b) :
    b.is_active = a.is_active ∧
    (MoveTable.contains a.participants s = true →
      MoveTable.contains b.participants s = true) := by
  induction h with
  | refl => exact ⟨rfl, id⟩
  | step b c u ts hab hu hj ih =>
    obtain ⟨hact, hnotin, rfl⟩ := (join_event_ok_iff b u ts c).mp hj
    refine ⟨?_, ?_⟩
    · show b.is_active = a.is_active
      exact ih.1
    · intro hs
      show MoveTable.contains (MoveTable.add b.participants u _) s = true
      exact contains_add_of_contains _ _ _ _ (ih.2 hs)

/-- C6: `join_event` aborts with `EEventNotActive` on an inactive policy,
aborts with `EAlreadyParticipant` for an enrolled sender, and otherwise
succeeds by appending exactly the record
`{ joined_at := now, has_paid := !requires_payment, access_level := 0 }`
for the sender, leaving every other binding untouched; once a join by `s`
succeeded, a second join by `s` fails with `EAlreadyParticipant` after any
interleaved sequence of successful joins by other principals. It never
blocks on payment: success does not depend on `requires_payment`. -/
theorem C6_join_event (a : EventAccess) (s : Address) (ts : Nat)
    (a₁ a₂ : EventAccess) (ts2 : Nat) :
    (a.is_active = false → join_event a s ts = .error (.code EEventNotActive)) ∧
    (a.is_active = true → MoveTable.contains a.participants s = true →
      join_event a s ts = .error (.code EAlreadyParticipant)) ∧
    (a.is_active = true → MoveTable.contains a.participants s = false →
      join_event a s ts =
        .ok { a with
              participants :=
                MoveTable.add a.participants s
                  { joined_at := ts, has_paid := !a.requires_payment,
                    access_level := 0 } }) ∧
    (join_event a s ts = .ok a₁ → JoinsBy s a₁ a₂ →
      join_event a₂ s ts2 = .error (.code EAlreadyParticipant)) := by
  refine ⟨?_, ?_, ?_, ?_⟩
  · intro h; simp [join_event, h]
  · intro h hc; simp [join_event, h, hc]
  · intro h hc; exact (join_event_ok_iff a s ts _).mpr ⟨h, hc, rfl⟩
  · intro hj hchain
    obtain ⟨hact, hnotin, rfl⟩ := (join_event_ok_iff a s ts a₁).mp hj
    obtain ⟨hact2, hmem2⟩ := joinsBy_preserves s _ a₂ hchain
    have hc1 : MoveTable.contains
        (MoveTable.add a.participants s
          { joined_at := ts, has_paid := !a.requires_payment,
            access_level := 0 }) s = true :=
      contains_add_self _ _ _ hnotin
    have hc2 : MoveTable.contains a₂.participants s = true := hmem2 hc1
    have ha2 : a₂.is_active = true := by rw [hact2]; exact hact
    simp [join_event, ha2, hc2]

/-- Witness for C6: an inactive policy rejects a join, a fresh principal's
join succeeds with the basic free record, and the same principal's second
join is rejected as already enrolled. -/
theorem C6_witness :
    join_event samplePolicyInactive 5 1 = .error (.code EEventNotActive) ∧
    join_event samplePolicy 5 1 = .ok samplePolicyJoined ∧
    join_event samplePolicyJoined 5 2 = .error (.code EAlreadyParticipant) :=
  ⟨(C6_join_event samplePolicyInactive 5 1 samplePolicyInactive
      samplePolicyInactive 2).1 rfl,
   (C6_join_event samplePolicy 5 1 samplePolicyJoined
      samplePolicyJoined 2).2.2.1 rfl rfl,
   (C6_join_event samplePolicy 5 1 samplePolicyJoined
      samplePolicyJoined 2).2.2.2 rfl (JoinsBy.refl _)⟩

/-! ### Lemmas used by C7 -/

/-- What a granted `seal_approve` query implies about its inputs. -/
theorem seal_approve_true_elim (a : EventAccess) (bytes : Bytes) (u : Address)
    (h : seal_approve a bytes u = .ok true) :
    validUtf8 bytes = true ∧ (a.event_id == bytes) = true ∧
    a.is_active = true ∧ MoveTable.contains a.participants u = true ∧
    paidOk a u = true := by
  by_cases hv : validUtf8 bytes = true
  · rw [seal_approve_eq a bytes u hv] at h
    have hb : ((a.event_id == bytes) && a.is_active &&
        MoveTable.contains a.participants u && paidOk a u) = true := by
      simpa using h
    simp only [Bool.and_eq_true] at hb
    exact ⟨hv, hb.1.1.1, hb.1.1.2, hb.1.2, hb.2⟩
  · have hvf : validUtf8 bytes = false := by simpa using hv
    unfold seal_approve at h
    rw [hvf] at h
    simp at h

/-- `paidOk` ignores the `is_active` flag. -/
theorem paidOk_set_active (a : EventAccess) (b : Bool) (u : Address) :
    paidOk { a with is_active := b } u = paidOk a u := rfl

/-- C7: if `seal_approve` grants access for a principal, then after the
organizer's `deactivate_event` the same query denies it, and after the
organizer's subsequent `reactivate_event` it grants it again (deactivation
removes no participant record); `deactivate_event` and `reactivate_event`
called by a non-organizer abort with `ENotOrganizer` (the spec's
`Unauthorized`) and — being aborts — leave `is_active` unchanged. -/
theorem C7_deactivation_toggle (a a' a'' : EventAccess) (bytes : Bytes)
    (u s : Address) :
    (seal_approve a bytes u = .ok true →
      deactivate_event a a.organizer = .ok a' →
      seal_approve a' bytes u = .ok false) ∧
    (seal_approve a bytes u = .ok true →
      deactivate_event a a.organizer = .ok a' →
      reactivate_event a' a.organizer = .ok a'' →
      seal_approve a'' bytes u = .ok true) ∧
    (s ≠ a.organizer → deactivate_event a s = .error (.code ENotOrganizer)) ∧
    (s ≠ a.organizer → reactivate_event a s = .error (.code ENotOrganizer)) := by
  refine ⟨?_, ?_, ?_, ?_⟩
  · intro h1 hd
    obtain ⟨hv, e1, e2, e3, e4⟩ := seal_approve_true_elim a bytes u h1
    obtain ⟨-, rfl⟩ := (deactivate_event_ok_iff a a.organizer a').mp hd
    rw [seal_approve_eq _ bytes u hv]
    simp [e1]
  · intro h1 hd hr
    obtain ⟨hv, e1, e2, e3, e4⟩ := seal_approve_true_elim a bytes u h1
    obtain ⟨-, rfl⟩ := (deactivate_event_ok_iff a a.organizer a').mp hd
    obtain ⟨-, rfl⟩ := (reactivate_event_ok_iff _ a.organizer a'').mp hr
    rw [seal_approve_eq _ bytes u hv]
    simp [e1, e3, paidOk_set_active, e4]
  · intro hs
    unfold deactivate_event
    rw [if_neg (Ne.symm hs)]
  · intro hs
    unfold reactivate_event
    rw [if_neg (Ne.symm hs)]

/-- Witness for C7: the end-to-end scenario on the joined sample policy —
access granted, denied after deactivation, granted again after reactivation,
and principal `9` may not flip the switch. -/
theorem C7_witness :
    seal_approve { samplePolicyJoined with is_active := false } [101] 5 =
      .ok false ∧
    seal_approve samplePolicyJoined [101] 5 = .ok true ∧
    deactivate_event samplePolicyJoined 9 = .error (.code ENotOrganizer) ∧
    reactivate_event samplePolicyJoined 9 = .error (.code ENotOrganizer) :=
  ⟨(C7_deactivation_toggle samplePolicyJoined
      { samplePolicyJoined with is_active := false } samplePolicyJoined
      [101] 5 9).1 rfl rfl,
   (C7_deactivation_toggle samplePolicyJoined
      { samplePolicyJoined with is_active := false } samplePolicyJoined
      [101] 5 9).2.1 rfl rfl rfl,
   (C7_deactivation_toggle samplePolicyJoined
      { samplePolicyJoined with is_active := false } samplePolicyJoined
      [101] 5 9).2.2.1 (by decide),
   (C7_deactivation_toggle samplePolicyJoined
      { samplePolicyJoined with is_active := false } samplePolicyJoined
      [101] 5 9).2.2.2 (by decide)⟩

/-- C4 counterexample: a paid-mint call with `payment.amount >= price`
(5 ≥ 3) but an event id byte sequence that is not valid UTF-8 (`[0xFF]`)
does not succeed — it aborts in `string::utf8` — refuting the claim's
unconditional success branch. -/
theorem C4_counterexample :
    (3 : Nat) ≤ 5 ∧
    buy_new_ticket [255] 1 false [] { value := 5 } 3 2 1 0 0 =
      .error .invalidUtf8 :=
  ⟨by decide, rfl⟩

/-- C4 (amended): `buy_new_ticket` with `payment.amount < price` aborts with
`EInsufficientPayment` — the abort rolls back the transaction, so no ticket
is created and no funds move; with `payment.amount ≥ price` and well-formed
(valid UTF-8) `event_id` and `metadata_uri` strings it succeeds, minting
exactly one new ticket to the caller with `checked_in = false` and empty
proof, while the full payment amount — any excess over `price` included —
moves to the organizer. -/
theorem C4_payment_atomicity (eid : Bytes) (n : Nat) (sb : Bool)
    (uri : Bytes) (payment : Coin) (price : Nat) (org sender : Address)
    (epoch fid : Nat) :
    (payment.value < price →
      buy_new_ticket eid n sb uri payment price org sender epoch fid =
        .error (.code EInsufficientPayment)) ∧
    (price ≤ payment.value → validUtf8 eid = true → validUtf8 uri = true →
      buy_new_ticket eid n sb uri payment price org sender epoch fid =
        .ok { ticket :=
                { id := fid, event_id := eid, ticket_number := n,
                  attendee := sender, is_soulbound := sb,
                  checked_in := false, minted_at := epoch,
                  metadata_uri := uri, zk_proof_hash := [] },
              ticket_owner := sender,
              payment_transfer :=
                { amount := payment.value, recipient := org } }) := by
  constructor
  · intro h
    unfold buy_new_ticket
    rw [if_pos h]
  · intro h hv1 hv2
    unfold buy_new_ticket
    rw [if_neg (not_lt.mpr h), hv1, hv2]
    simp

/-- Witness for C4 (amended): underpayment (2 < 3) is rejected; the spec's
end-to-end numbers (`price = 100`, `payment = 150`, soulbound) mint one
ticket and move all 150 units to the organizer. -/
theorem C4_witness :
    buy_new_ticket [101] 1 false [] { value := 2 } 3 2 5 0 9 =
      .error (.code EInsufficientPayment) ∧
    buy_new_ticket [101] 1 true [] { value := 150 } 100 2 5 0 9 =
      .ok { ticket :=
              { id := 9, event_id := [101], ticket_number := 1,
                attendee := 5, is_soulbound := true, checked_in := false,
                minted_at := 0, metadata_uri := [], zk_proof_hash := [] },
            ticket_owner := 5,
            payment_transfer := { amount := 150, recipient := 2 } } :=
  ⟨(C4_payment_atomicity [101] 1 false [] { value := 2 } 3 2 5 0 9).1
      (by decide),
   (C4_payment_atomicity [101] 1 true [] { value := 150 } 100 2 5 0 9).2
      (by decide) rfl rfl⟩

/-- C5: `list_for_sale` on a soulbound ticket always aborts with
`ESoulbound` and creates no listing, for any price and any caller; on a
non-soulbound ticket it succeeds, sharing a listing that carries the
ticket's object address, the holder as seller, and the price, alongside the
unchanged ticket. -/
theorem C5_soulbound_listing (ticket : EventTicket) (price : Nat)
    (sender : Address) :
    (ticket.is_soulbound = true →
      list_for_sale ticket price sender = .error (.code ESoulbound)) ∧
    (ticket.is_soulbound = false →
      list_for_sale ticket price sender =
        .ok ({ ticket_id := ticket.id, seller := ticket.attendee,
               price := price }, ticket)) := by
  constructor
  · intro h; simp [list_for_sale, h]
  · intro h; simp [list_for_sale, h]

/-- Witness for C5: the soulbound sample ticket cannot be listed, the
transferable one can. -/
theorem C5_witness :
    list_for_sale sampleSoulboundTicket 100 5 = .error (.code ESoulbound) ∧
    list_for_sale sampleTicket 10 5 =
      .ok ({ ticket_id := 99, seller := 5, price := 10 }, sampleTicket) :=
  ⟨(C5_soulbound_listing sampleSoulboundTicket 100 5).1 rfl,
   (C5_soulbound_listing sampleTicket 10 5).2 rfl⟩

/-- C9: the ticket's holder (`attendee`) is changed only by `buy_ticket`:
a successful `check_in` changes exactly `checked_in`, a successful
`verify_zk_proof` changes exactly `zk_proof_hash`, and a successful
`list_for_sale` returns the ticket with every field unchanged. -/
theorem C9_holder_frame (t t₁ t₂ t₃ : EventTicket) (sender : Address)
    (epoch : Nat) (zk : Bytes) (price : Nat) (pr : CheckInProof)
    (l : TicketListing) :
    (check_in t sender epoch = .ok (t₁, pr) →
      t₁ = { t with checked_in := true }) ∧
    (verify_zk_proof t zk = .ok t₂ → t₂ = { t with zk_proof_hash := zk }) ∧
    (list_for_sale t price sender = .ok (l, t₃) → t₃ = t) := by
  refine ⟨?_, ?_, ?_⟩
  · intro h
    unfold check_in at h
    split_ifs at h; simp_all
  · intro h
    unfold verify_zk_proof at h
    split_ifs at h; simp_all
  · intro h
    unfold list_for_sale at h
    split_ifs at h; simp_all

/-- Witness for C9 on the sample ticket: check-in flips only `checked_in`,
proof submission sets only `zk_proof_hash`, listing changes nothing. -/
theorem C9_witness :
    ({ id := 99, event_id := [101], ticket_number := 1, attendee := 5,
       is_soulbound := false, checked_in := true, minted_at := 0,
       metadata_uri := [], zk_proof_hash := [] } : EventTicket) =
      { sampleTicket with checked_in := true } ∧
    ({ id := 99, event_id := [101], ticket_number := 1, attendee := 5,
       is_soulbound := false, checked_in := false, minted_at := 0,
       metadata_uri := [], zk_proof_hash := [122] } : EventTicket) =
      { sampleTicket with zk_proof_hash := [122] } ∧
    ({ id := 99, event_id := [101], ticket_number := 1, attendee := 5,
       is_soulbound := false, checked_in := false, minted_at := 0,
       metadata_uri := [], zk_proof_hash := [] } : EventTicket) =
      sampleTicket :=
  ⟨(C9_holder_frame sampleTicket
      { id := 99, event_id := [101], ticket_number := 1, attendee := 5,
        is_soulbound := false, checked_in := true, minted_at := 0,
        metadata_uri := [], zk_proof_hash := [] }
      { id := 99, event_id := [101], ticket_number := 1, attendee := 5,
        is_soulbound := false, checked_in := false, minted_at := 0,
        metadata_uri := [], zk_proof_hash := [122] }
      { id := 99, event_id := [101], ticket_number := 1, attendee := 5,
        is_soulbound := false, checked_in := false, minted_at := 0,
        metadata_uri := [], zk_proof_hash := [] }
      5 3 [122] 10
      { event_id := [101], attendee := 5, checked_in_at := 3 }
      { ticket_id := 99, seller := 5, price := 10 }).1 rfl,
   (C9_holder_frame sampleTicket
      { id := 99, event_id := [101], ticket_number := 1, attendee := 5,
        is_soulbound := false, checked_in := true, minted_at := 0,
        metadata_uri := [], zk_proof_hash := [] }
      { id := 99, event_id := [101], ticket_number := 1, attendee := 5,
        is_soulbound := false, checked_in := false, minted_at := 0,
        metadata_uri := [], zk_proof_hash := [122] }
      { id := 99, event_id := [101], ticket_number := 1, attendee := 5,
        is_soulbound := false, checked_in := false, minted_at := 0,
        metadata_uri := [], zk_proof_hash := [] }
      5 3 [122] 10
      { event_id := [101], attendee := 5, checked_in_at := 3 }
      { ticket_id := 99, seller := 5, price := 10 }).2.1 rfl,
   (C9_holder_frame sampleTicket
      { id := 99, event_id := [101], ticket_number := 1, attendee := 5,
        is_soulbound := false, checked_in := true, minted_at := 0,
        metadata_uri := [], zk_proof_hash := [] }
      { id := 99, event_id := [101], ticket_number := 1, attendee := 5,
        is_soulbound := false, checked_in := false, minted_at := 0,
        metadata_uri := [], zk_proof_hash := [122] }
      { id := 99, event_id := [101], ticket_number := 1, attendee := 5,
        is_soulbound := false, checked_in := false, minted_at := 0,
        metadata_uri := [], zk_proof_hash := [] }
      5 3 [122] 10
      { event_id := [101], attendee := 5, checked_in_at := 3 }
      { ticket_id := 99, seller := 5, price := 10 }).2.2 rfl⟩

/-- C10: `buy_ticket` never compares the supplied ticket against the
listing's stored `ticket_id`: for every listing, every ticket — the ticket's
own id unconstrained — and every payment covering the listing price, it
succeeds, moves the full payment to the listing's seller, reassigns the
supplied ticket's holder to the caller, and consumes the listing. -/
theorem C10_buy_ticket_ignores_listing (l : TicketListing) (t : EventTicket)
    (payment : Coin) (sender : Address) (h : l.price ≤ payment.value) :
    buy_ticket l t payment sender =
      .ok { ticket := { t with attendee := sender }, ticket_owner := sender,
            payment_transfer :=
              { amount := payment.value, recipient := l.seller } } := by
  unfold buy_ticket
  rw [if_neg (not_lt.mpr h)]

/-- Witness for C10: a listing whose `ticket_id` (42) differs from the
supplied ticket's id (99) is still consumed by a successful purchase. -/
theorem C10_witness :
    (42 : Nat) ≠ 99 ∧
    buy_ticket { ticket_id := 42, seller := 3, price := 10 } sampleTicket
        { value := 10 } 8 =
      .ok { ticket := { sampleTicket with attendee := 8 }, ticket_owner := 8,
            payment_transfer := { amount := 10, recipient := 3 } } :=
  ⟨by decide,
   C10_buy_ticket_ignores_listing { ticket_id := 42, seller := 3, price := 10 }
     sampleTicket { value := 10 } 8 (by decide)⟩

/-- C8 counterexample: `create_event_access` performs no emptiness check —
with the empty event id it succeeds (refuting "fails if the event_id is
empty"), while with the non-empty id `[0xFF]` (invalid UTF-8) it aborts
(refuting "for every non-empty event_id it succeeds"). -/
theorem C8_counterexample :
    create_event_access [] true false 0 7 0 =
      .ok { event_id := [], organizer := 7, is_public := true,
            requires_payment := false, payment_amount := 0,
            is_active := true,
            participants :=
              [(7, { joined_at := 0, has_paid := true, access_level := 2 })],
            created_at := 0 } ∧
    create_event_access [255] true false 0 7 0 = .error .invalidUtf8 :=
  ⟨rfl, rfl⟩

/-- C8 (amended): `create_event_access` fails iff the supplied event_id is
not valid UTF-8 (the empty id is valid and succeeds); on every valid
event_id it succeeds, producing a shared policy with `is_active = true` and
the creator inserted as organizer participant. -/
theorem C8_create_event_access (eid : Bytes) (pub pay : Bool) (amt : Nat)
    (s : Address) (ts : Nat) :
    (validUtf8 eid = false →
      create_event_access eid pub pay amt s ts = .error .invalidUtf8) ∧
    (validUtf8 eid = true →
      create_event_access eid pub pay amt s ts =
        .ok { event_id := eid, organizer := s, is_public := pub,
              requires_payment := pay, payment_amount := amt,
              is_active := true,
              participants :=
                [(s, { joined_at := ts, has_paid := true,
                       access_level := 2 })],
              created_at := ts }) := by
  constructor
  · intro h
    unfold create_event_access
    rw [h, if_pos rfl]
  · intro h
    exact (create_event_access_ok_iff eid pub pay amt s ts _).mpr ⟨h, rfl⟩

/-- Witness for C8 (amended) at a valid one-byte id and at an invalid id. -/
theorem C8_witness :
    create_event_access [101] true false 0 7 0 =
      .ok { event_id := [101], organizer := 7, is_public := true,
            requires_payment := false, payment_amount := 0,
            is_active := true,
            participants :=
              [(7, { joined_at := 0, has_paid := true, access_level := 2 })],
            created_at := 0 } ∧
    create_event_access [200] true false 0 7 0 = .error .invalidUtf8 :=
  ⟨(C8_create_event_access [101] true false 0 7 0).2 rfl,
   (C8_create_event_access [200] true false 0 7 0).1 rfl⟩

end WalrusEvents
